import Mathlib

/-!
Verification of `scripts/kt_api_master.py`: a static nested mapping
describing the table-of-contents structure of the Keras Tuner API
documentation.  Each Python dict literal becomes a `PageNode`; optional
dict keys (`toc`, `children`, `generate`) become `Option` fields, so that
key absence is distinguished from an empty value.
-/

/-- A node of the documentation tree.  Fields, in order:
`path`, `title`, optional `toc`, optional `children`, optional `generate`. -/
inductive PageNode : Type where
  | mk : String → String → Option Bool → Option (List PageNode) →
      Option (List String) → PageNode

def PageNode.path : PageNode → String
  | .mk p _ _ _ _ => p

def PageNode.title : PageNode → String
  | .mk _ t _ _ _ => t

def PageNode.toc : PageNode → Option Bool
  | .mk _ _ b _ _ => b

def PageNode.children : PageNode → Option (List PageNode)
  | .mk _ _ _ c _ => c

def PageNode.generate : PageNode → Option (List String)
  | .mk _ _ _ _ g => g

/-- `ORACLE_MASTER` from `scripts/kt_api_master.py` (lines 1-41). -/
def ORACLE_MASTER : PageNode :=
  .mk "oracles/" "Oracles" (some true)
    (some [
      .mk "base_oracle" "The base Oracle class" none none
        (some [
          "kerastuner.Oracle",
          "kerastuner.Oracle.create_trial",
          "kerastuner.Oracle.end_trial",
          "kerastuner.Oracle.get_best_trials",
          "kerastuner.Oracle.get_state",
          "kerastuner.Oracle.set_state",
          "kerastuner.Oracle.update_trial"]),
      .mk "random" "RandomSearchOracle" none none
        (some ["kerastuner.oracles.RandomSearch"]),
      .mk "bayesian" "BayesianOptimizationOracle" none none
        (some ["kerastuner.oracles.BayesianOptimization"]),
      .mk "hyperband" "HyperbandOracle" none none
        (some ["kerastuner.oracles.Hyperband"])])
    none

/-- `HYPERMODEL_MASTER` from `scripts/kt_api_master.py` (lines 43-71). -/
def HYPERMODEL_MASTER : PageNode :=
  .mk "hypermodels/" "HyperModels" (some true)
    (some [
      .mk "base_hypermodel" "The base HyperModel class" none none
        (some [
          "kerastuner.HyperModel",
          "kerastuner.HyperModel.build"]),
      .mk "hyper_resnet" "HyperResNet" none none
        (some ["kerastuner.applications.HyperResNet"]),
      .mk "hyper_xception" "HyperXception" none none
        (some ["kerastuner.applications.HyperXception"])])
    none

/-- `TUNER_MASTER` from `scripts/kt_api_master.py` (lines 73-126). -/
def TUNER_MASTER : PageNode :=
  .mk "tuners/" "Tuners" (some true)
    (some [
      .mk "base_tuner" "The base Tuner class" none none
        (some [
          "kerastuner.Tuner",
          "kerastuner.Tuner.get_best_hyperparameters",
          "kerastuner.Tuner.get_best_models",
          "kerastuner.Tuner.get_state",
          "kerastuner.Tuner.load_model",
          "kerastuner.Tuner.on_epoch_begin",
          "kerastuner.Tuner.on_batch_begin",
          "kerastuner.Tuner.on_batch_end",
          "kerastuner.Tuner.on_epoch_end",
          "kerastuner.Tuner.run_trial",
          "kerastuner.Tuner.save_model",
          "kerastuner.Tuner.search",
          "kerastuner.Tuner.set_state"]),
      .mk "random" "RandomSearch" none none
        (some ["kerastuner.RandomSearch"]),
      .mk "bayesian" "BayesianOptimization" none none
        (some ["kerastuner.BayesianOptimization"]),
      .mk "hyperband" "Hyperband" none none
        (some ["kerastuner.Hyperband"]),
      .mk "sklearn" "Sklearn" none none
        (some ["kerastuner.tuners.Sklearn"])])
    none

/-- The first child of `KT_API_MASTER`: the inline `hyperparameters`
dict literal (lines 133-146 of `scripts/kt_api_master.py`). -/
def HYPERPARAMETERS_NODE : PageNode :=
  .mk "hyperparameters" "HyperParameters" none none
    (some [
      "kerastuner.HyperParameters",
      "kerastuner.HyperParameters.Boolean",
      "kerastuner.HyperParameters.Choice",
      "kerastuner.HyperParameters.Fixed",
      "kerastuner.HyperParameters.Float",
      "kerastuner.HyperParameters.Int",
      "kerastuner.HyperParameters.conditional_scope",
      "kerastuner.HyperParameters.get"])

/-- `KT_API_MASTER` from `scripts/kt_api_master.py` (lines 128-151). -/
def KT_API_MASTER : PageNode :=
  .mk "keras-tuner/" "Keras Tuner" (some true)
    (some [HYPERPARAMETERS_NODE, TUNER_MASTER, ORACLE_MASTER, HYPERMODEL_MASTER])
    none

mutual

/-- `allNodes p n` holds iff predicate `p` holds at every node of the tree
rooted at `n` (the node itself and, recursively, every child). -/
def allNodes (p : PageNode → Bool) : PageNode → Bool
  | .mk pa ti tc ch ge =>
      p (.mk pa ti tc ch ge) &&
        (match ch with
         | none => true
         | some cs => allNodesList p cs)

def allNodesList (p : PageNode → Bool) : List PageNode → Bool
  | [] => true
  | c :: cs => allNodes p c && allNodesList p cs

end

mutual

/-- Number of nodes of the tree rooted at `n` satisfying `p`. -/
def countNodes (p : PageNode → Bool) : PageNode → Nat
  | .mk pa ti tc ch ge =>
      (if p (.mk pa ti tc ch ge) then 1 else 0) +
        (match ch with
         | none => 0
         | some cs => countNodesList p cs)

def countNodesList (p : PageNode → Bool) : List PageNode → Nat
  | [] => 0
  | c :: cs => countNodes p c + countNodesList p cs

end

/-- The list of `path` values of the immediate children of a node
(empty when the `children` key is absent). -/
def childPaths (n : PageNode) : List String :=
  (n.children.getD []).map PageNode.path

/-- All elements of a list of strings are pairwise distinct. -/
def distinctStrings : List String → Bool
  | [] => true
  | x :: xs => (!xs.contains x) && distinctStrings xs

/-- A value of a generic serialization format (a JSON-like value):
strings, booleans, ordered arrays, and ordered key-value objects. -/
inductive JValue : Type where
  | str : String → JValue
  | bool : Bool → JValue
  | arr : List JValue → JValue
  | obj : List (String × JValue) → JValue

mutual

/-- Serialize a `PageNode` to a `JValue` object: the keys `path` and
`title` always, and `toc`, `children`, `generate` only when present,
preserving the order of `children` and `generate` lists. -/
def serialize : PageNode → JValue
  | .mk p t tc ch ge =>
      .obj ([("path", .str p), ("title", .str t)] ++
        (match tc with
         | none => []
         | some b => [("toc", .bool b)]) ++
        (match ch with
         | none => []
         | some cs => [("children", .arr (serializeList cs))]) ++
        (match ge with
         | none => []
         | some gs => [("generate", .arr (gs.map JValue.str))]))

def serializeList : List PageNode → List JValue
  | [] => []
  | n :: ns => serialize n :: serializeList ns

end

/-- First value bound to key `k` in an ordered key-value list. -/
def lookupKey (k : String) : List (String × JValue) → Option JValue
  | [] => none
  | (k2, v) :: kvs => if k2 == k then some v else lookupKey k kvs

/-- Read a list of `JValue`s as a list of strings; fails on a non-string. -/
def asStringList : List JValue → Option (List String)
  | [] => some []
  | .str s :: vs => (asStringList vs).map (fun ss => s :: ss)
  | _ :: _ => none

/-- Read an optional `toc` field: an absent key yields `some none`, a
boolean yields `some (some b)`, anything else is a failure. -/
def readToc : Option JValue → Option (Option Bool)
  | none => some none
  | some (.bool b) => some (some b)
  | some _ => none

/-- Read an optional `generate` field: an absent key yields `some none`,
an array of strings yields the list, anything else is a failure. -/
def readGenerate : Option JValue → Option (Option (List String))
  | none => some none
  | some (.arr vs) => (asStringList vs).map some
  | some _ => none

mutual

/-- Deserialize a `JValue` back into a `PageNode`, with a fuel bound on
the recursion depth; fails on malformed input or exhausted fuel. -/
def deserialize : Nat → JValue → Option PageNode
  | 0, _ => none
  | fuel + 1, .obj kvs =>
      match lookupKey "path" kvs, lookupKey "title" kvs,
            readToc (lookupKey "toc" kvs),
            readGenerate (lookupKey "generate" kvs) with
      | some (.str p), some (.str t), some tc, some ge =>
          match lookupKey "children" kvs with
          | none => some (.mk p t tc none ge)
          | some (.arr vs) =>
              (deserializeList fuel vs).map (fun cs => .mk p t tc (some cs) ge)
          | some _ => none
      | _, _, _, _ => none
  | _ + 1, _ => none

def deserializeList : Nat → List JValue → Option (List PageNode)
  | 0, _ => none
  | _ + 1, [] => some []
  | fuel + 1, v :: vs =>
      match deserialize fuel v, deserializeList fuel vs with
      | some n, some ns => some (n :: ns)
      | _, _ => none

end

/-- A leaf node (no `children` key) has a non-empty `generate` list. -/
def leafGenerateOk (n : PageNode) : Bool :=
  match n.children with
  | some _ => true
  | none =>
      match n.generate with
      | some gs => !gs.isEmpty
      | none => false

/-- A non-leaf node (with a `children` key) has `toc = true` and no
`generate` key. -/
def nonLeafOk (n : PageNode) : Bool :=
  match n.children with
  | none => true
  | some _ => n.toc == some true && n.generate.isNone

/-- A node does not carry both a `children` key and a `generate` key. -/
def notBothOk (n : PageNode) : Bool :=
  !(n.children.isSome && n.generate.isSome)

/-- A leaf node (no `children` key) carries no `toc` key. -/
def leafNoToc (n : PageNode) : Bool :=
  match n.children with
  | some _ => true
  | none => n.toc.isNone

/-- `s` starts with `pre`, compared character by character. -/
def stringStartsWith (pre s : String) : Bool :=
  List.isPrefixOf pre.data s.data

/-- Every string in the node's `generate` list (if any) starts with the
prefix given by `pre`. -/
def generateAllStartWith (pre : String) (n : PageNode) : Bool :=
  (n.generate.getD []).all (fun s => stringStartsWith pre s)

/-- C1: the root node `KT_API_MASTER` has path `"keras-tuner/"` and its
children list contains exactly four entries, in order: the
hyperparameters node, the tuners sub-tree, the oracles sub-tree, and
the hypermodels sub-tree. -/
theorem kt_api_master_root_structure :
    KT_API_MASTER.path = "keras-tuner/" ∧
    HYPERPARAMETERS_NODE.path = "hyperparameters" ∧
    KT_API_MASTER.children =
      some [HYPERPARAMETERS_NODE, TUNER_MASTER, ORACLE_MASTER, HYPERMODEL_MASTER] :=
  ⟨rfl, rfl, rfl⟩

/-- C2: the tuners sub-tree `TUNER_MASTER` has exactly five children,
and their `path` values, in order, are `base_tuner`, `random`,
`bayesian`, `hyperband`, `sklearn`. -/
theorem tuner_master_children_paths :
    TUNER_MASTER.children.map (List.map PageNode.path) =
      some ["base_tuner", "random", "bayesian", "hyperband", "sklearn"] :=
  rfl

/-- C3: the oracles sub-tree `ORACLE_MASTER` has exactly four children,
and their `path` values, in order, are `base_oracle`, `random`,
`bayesian`, `hyperband`. -/
theorem oracle_master_children_paths :
    ORACLE_MASTER.children.map (List.map PageNode.path) =
      some ["base_oracle", "random", "bayesian", "hyperband"] :=
  rfl

/-- C4: every leaf node (no `children` key) of the tree rooted at
`KT_API_MASTER` has a `generate` key with a non-empty list. -/
theorem kt_api_master_leaves_generate :
    allNodes leafGenerateOk KT_API_MASTER = true :=
  rfl

/-- C5: every non-leaf node (with a `children` key) of the tree rooted
at `KT_API_MASTER` has `toc = true` and no `generate` key. -/
theorem kt_api_master_nonleaves_toc :
    allNodes nonLeafOk KT_API_MASTER = true :=
  rfl

/-- C6: at every node of the tree rooted at `KT_API_MASTER`, the `path`
values of the immediate children are pairwise distinct; paths are not
globally unique, as `"random"` occurs among the children of both the
tuners and the oracles sub-trees. -/
theorem kt_api_master_sibling_paths_distinct :
    allNodes (fun n => distinctStrings (childPaths n)) KT_API_MASTER = true ∧
    (childPaths TUNER_MASTER).contains "random" = true ∧
    (childPaths ORACLE_MASTER).contains "random" = true :=
  ⟨rfl, rfl, rfl⟩

/-- C7: no node of the tree rooted at `KT_API_MASTER` carries both a
`children` key and a `generate` key. -/
theorem kt_api_master_children_generate_exclusive :
    allNodes notBothOk KT_API_MASTER = true :=
  rfl

/-- C8: serializing the tree rooted at `KT_API_MASTER` to the
JSON-like format and deserializing the result yields exactly the
original tree, with the order of all `children` and `generate` lists
preserved. -/
theorem kt_api_master_serialize_roundtrip :
    deserialize 32 (serialize KT_API_MASTER) = some KT_API_MASTER :=
  rfl

/-- C9: the hypermodels sub-tree `HYPERMODEL_MASTER` has exactly three
children, and their `path` values, in order, are `base_hypermodel`,
`hyper_resnet`, `hyper_xception`. -/
theorem hypermodel_master_children_paths :
    HYPERMODEL_MASTER.children.map (List.map PageNode.path) =
      some ["base_hypermodel", "hyper_resnet", "hyper_xception"] :=
  rfl

/-- C10: no leaf node of the tree rooted at `KT_API_MASTER` carries a
`toc` key; the `toc` key appears on exactly four nodes, which are
exactly the non-leaf nodes (also four); and every string in every
`generate` list begins with the prefix `"kerastuner."`. -/
theorem kt_api_master_toc_and_generate_prefix :
    allNodes leafNoToc KT_API_MASTER = true ∧
    countNodes (fun n => n.toc.isSome) KT_API_MASTER = 4 ∧
    countNodes (fun n => n.children.isSome) KT_API_MASTER = 4 ∧
    allNodes (generateAllStartWith "kerastuner.") KT_API_MASTER = true :=
  ⟨rfl, rfl, rfl, rfl⟩
